import Mathlib

/-!
A shallow embedding of `src/bot.py` (a Discord/GitHub scoring bot).

The bot's webhook handler authenticates GitHub deliveries with HMAC-SHA256,
parses the pull-request payload, extracts a linked issue number from the PR
body with a regular expression, fetches the issue's labels, maps labels to
points, and accumulates points in a SQLite table `scores(github_username
PRIMARY KEY, points)`.

Modelling conventions:
- Parsed JSON values are `JVal`; Python `dict.get` is `objGet`, Python
  truthiness is `pyTruthy`.
- The SQLite table is a `Ledger` (an association list in row order); `SELECT
  ... fetchone` reads the first matching row, `UPDATE ... WHERE` rewrites
  every matching row in place, `INSERT` appends.  Key comparison is exact
  value equality.
- The outcome of `requests.get` is a `FetchOutcome`: either a raised network
  exception or a response carrying a status code and the label names of the
  issue.
- A Flask handler run is an `HOutcome`: the HTTP response or the uncaught
  Python exception, the ledger after the run, and the notification (if any)
  handed to the Discord channel.
- The HMAC-SHA256 hex digest is a parameter `hmacHex : String → String →
  String` (secret, message ↦ digest); likewise JSON parsing of the raw body
  is a parameter `parseJson`.  The handler's control flow never inspects
  their internals, so every theorem quantifies over them.
- Character classes of the Python regex (`\s`, `\d`, case folding) are
  modelled on their ASCII meaning.
-/

namespace DiscordBot

/-- Parsed JSON values, as Python represents them after `request.json`. -/
inductive JVal where
  | null
  | jbool (b : Bool)
  | jnum (n : Int)
  | jstr (s : String)
  | jarr (elems : List JVal)
  | jobj (fields : List (String × JVal))

mutual

/-- Structural equality of JSON values (Python `==` on parsed JSON). -/
def JVal.beq : JVal → JVal → Bool
  | .null, .null => true
  | .jbool a, .jbool b => a == b
  | .jnum a, .jnum b => a == b
  | .jstr a, .jstr b => a == b
  | .jarr xs, .jarr ys => JVal.beqArr xs ys
  | .jobj xs, .jobj ys => JVal.beqObj xs ys
  | _, _ => false

def JVal.beqArr : List JVal → List JVal → Bool
  | [], [] => true
  | x :: xs, y :: ys => JVal.beq x y && JVal.beqArr xs ys
  | _, _ => false

def JVal.beqObj : List (String × JVal) → List (String × JVal) → Bool
  | [], [] => true
  | (k1, v1) :: xs, (k2, v2) :: ys =>
      k1 == k2 && JVal.beq v1 v2 && JVal.beqObj xs ys
  | _, _ => false

end

instance : BEq JVal := ⟨JVal.beq⟩

/-- Python `dict.get`: the value of the first binding of the key, if any. -/
def objGet (fields : List (String × JVal)) (k : String) : Option JVal :=
  (fields.find? (fun kv => kv.1 == k)).map (fun kv => kv.2)

/-- Python truthiness of a JSON value. -/
def pyTruthy : JVal → Bool
  | .null => false
  | .jbool b => b
  | .jnum n => n != 0
  | .jstr s => !s.isEmpty
  | .jarr elems => !elems.isEmpty
  | .jobj fields => !fields.isEmpty

/-- The `scores` table: one row per `github_username`, in insertion order. -/
abbrev Ledger := List (JVal × Int)

/-- `SELECT points FROM scores WHERE github_username = ?` + `fetchone()`:
the points of the first row whose key equals `u`. -/
def selectPoints (l : Ledger) (u : JVal) : Option Int :=
  (l.find? (fun kv => kv.1 == u)).map (fun kv => kv.2)

/-- `UPDATE scores SET points = ? WHERE github_username = ?`: every row whose
key equals `u` gets points `x`; rows keep their position. -/
def setPoints (l : Ledger) (u : JVal) (x : Int) : Ledger :=
  l.map (fun kv => if kv.1 == u then (kv.1, x) else kv)

/-- `update_score` (src/bot.py:49-58): read-modify-write of one user's score. -/
def update_score (l : Ledger) (username : JVal) (points_to_add : Int) : Ledger :=
  match selectPoints l username with
  | some old => setPoints l username (old + points_to_add)
  | none => l ++ [(username, points_to_add)]

/-- What `requests.get` on the issue URL produced: a raised exception
(connection error / timeout), or a response with a status code and, for the
parsed JSON, the issue's label names. -/
inductive FetchOutcome where
  | netError
  | response (status : Nat) (labelNames : List String)
  deriving DecidableEq

/-- The label-to-points policy of src/bot.py:79-85, applied to the set of
lower-cased label names. -/
def labelPoints (labels : List String) : Int :=
  if labels.contains "hard" then 20
  else if labels.contains "medium" then 10
  else if labels.contains "easy" then 5
  else 0

/-- `get_points_from_pr_labels` (src/bot.py:63-85).  A raised network
exception is not caught and propagates (`Except.error`); a non-200 status
returns 0; otherwise the labels are lower-cased and the policy applies. -/
def get_points_from_pr_labels : FetchOutcome → Except String Int
  | .netError => .error "RequestException"
  | .response status labelNames =>
      if status ≠ 200 then .ok 0
      else .ok (labelPoints (labelNames.map String.toLower))

/-- `SELECT github_username, points FROM scores ORDER BY points DESC LIMIT n`:
sort the rows by points descending and keep the first `n`. -/
def topN (l : Ledger) (n : Nat) : Ledger :=
  (l.mergeSort (fun a b => decide (b.2 ≤ a.2))).take n

/-- The message `show_leaderboard` sends: a distinct "empty" message, or the
embed built from the retrieved rows. -/
inductive LeaderboardMsg where
  | empty
  | board (entries : Ledger)

/-- `show_leaderboard` (src/bot.py:88-104): runs the `LIMIT 10` query,
sends the "empty" message when it returns no rows, otherwise the board;
the ledger is returned unchanged (the command only reads). -/
def show_leaderboard (l : Ledger) : LeaderboardMsg × Ledger :=
  let results := topN l 10
  if results.isEmpty then (.empty, l) else (.board results, l)

/-- The alternation of src/bot.py:134, in the regex's left-to-right order. -/
def closingKeywords : List (List Char) :=
  ["close", "closes", "closed", "fix", "fixes", "fixed",
   "resolve", "resolves", "resolved"].map String.toList

/-- The regex class `\s` (ASCII part). -/
def isSpaceChar (c : Char) : Bool :=
  c = ' ' || c = '\t' || c = '\n' || c = '\r' || c = '\x0b' || c = '\x0c'

/-- Match one keyword case-insensitively at the front; return the rest. -/
def dropKeywordCI : List Char → List Char → Option (List Char)
  | [], rest => some rest
  | _ :: _, [] => none
  | k :: ks, c :: cs => if c.toLower = k then dropKeywordCI ks cs else none

/-- Python `int` of a digit group. -/
def digitsVal (ds : List Char) : Nat :=
  ds.foldl (fun a c => 10 * a + (c.toNat - 48)) 0

/-- After the keyword: one `\s` character, `#`, then a maximal nonempty run
of digits (the group `(\d+)`). -/
def matchTail : List Char → Option Nat
  | s :: '#' :: rest =>
      if isSpaceChar s then
        let ds := rest.takeWhile Char.isDigit
        if ds.isEmpty then none else some (digitsVal ds)
      else none
  | _ => none

/-- Try the pattern anchored at this position: the alternatives in the
regex's order, each followed by `\s#(\d+)` (backtracking across
alternatives, as Python does). -/
def matchAt (cs : List Char) : Option Nat :=
  closingKeywords.findSome? (fun k => (dropKeywordCI k cs).bind matchTail)

/-- `re.search`: leftmost position wins. -/
def searchFrom : List Char → Option Nat
  | [] => none
  | c :: cs =>
      match matchAt (c :: cs) with
      | some n => some n
      | none => searchFrom cs

/-- The issue number `re.search(r"(?:close|closes|closed|fix|fixes|fixed|resolve|resolves|resolved)\s#(\d+)", pr_body, re.IGNORECASE)` extracts (src/bot.py:134,141). -/
def extract_issue_number (body : String) : Option Nat :=
  searchFrom body.toList

/-- How a handler run ends at the HTTP layer: a response, or an uncaught
Python exception (which Flask turns into a 500). -/
inductive HStatus where
  | resp (code : Nat) (body : String)
  | pyExn (name : String)
  deriving DecidableEq

/-- Result of one webhook delivery: HTTP-layer status, the ledger after the
run, and the notification (author, points) scheduled on the Discord channel,
if any. -/
structure HOutcome where
  status : HStatus
  ledger : Ledger
  notification : Option (JVal × Int)

/-- `pr.get('body') or ""` followed by its use as the string `re.search`
scans: a missing or falsy body gives `""`; a truthy non-string body makes
`re.search` raise `TypeError`. -/
def prBody (pr : List (String × JVal)) : Except String String :=
  match objGet pr "body" with
  | none => .ok ""
  | some v =>
      if pyTruthy v then
        match v with
        | .jstr s => .ok s
        | _ => .error "TypeError"
      else .ok ""

/-- The merged-PR branch of `github_webhook` (src/bot.py:126-158): read the
PR fields, extract the linked issue, fetch its labels, and score. -/
def score_merged_pr (fetch : Nat → FetchOutcome) (channelFound : Bool)
    (ledger : Ledger) (pr : List (String × JVal)) : HOutcome :=
  match objGet pr "user" with
  | none => ⟨.pyExn "KeyError", ledger, none⟩
  | some (.jobj userFields) =>
    match objGet userFields "login" with
    | none => ⟨.pyExn "KeyError", ledger, none⟩
    | some login =>
      match objGet pr "number", objGet pr "title", objGet pr "html_url" with
      | some _, some _, some _ =>
        match prBody pr with
        | .error e => ⟨.pyExn e, ledger, none⟩
        | .ok body =>
          match extract_issue_number body with
          | none => ⟨.resp 204 "", ledger, none⟩
          | some issueNumber =>
            match get_points_from_pr_labels (fetch issueNumber) with
            | .error e => ⟨.pyExn e, ledger, none⟩
            | .ok points =>
              if points > 0 then
                ⟨.resp 204 "", update_score ledger login points,
                 if channelFound then some (login, points) else none⟩
              else ⟨.resp 204 "", ledger, none⟩
      | _, _, _ => ⟨.pyExn "KeyError", ledger, none⟩
  | some _ => ⟨.pyExn "TypeError", ledger, none⟩

/-- The payload-processing part of `github_webhook` (src/bot.py:124-160):
`data.get('action') == 'closed' and data['pull_request']['merged']` with
Python's short-circuiting and exception behaviour, then the merged-PR branch
or the final `return ('', 204)`. -/
def process_payload (fetch : Nat → FetchOutcome) (channelFound : Bool)
    (ledger : Ledger) (data : JVal) : HOutcome :=
  match data with
  | .jobj fields =>
    match objGet fields "action" with
    | some (.jstr a) =>
      if a = "closed" then
        match objGet fields "pull_request" with
        | none => ⟨.pyExn "KeyError", ledger, none⟩
        | some (.jobj pr) =>
          match objGet pr "merged" with
          | none => ⟨.pyExn "KeyError", ledger, none⟩
          | some merged =>
            if pyTruthy merged then score_merged_pr fetch channelFound ledger pr
            else ⟨.resp 204 "", ledger, none⟩
        | some _ => ⟨.pyExn "TypeError", ledger, none⟩
      else ⟨.resp 204 "", ledger, none⟩
    | _ => ⟨.resp 204 "", ledger, none⟩
  | _ => ⟨.pyExn "AttributeError", ledger, none⟩

/-- `github_webhook` (src/bot.py:112-160).  Signature verification first:
missing or wrongly-prefixed header gives 400, a digest mismatch gives 403;
only then is the raw body parsed as JSON (`request.json`; failure raises)
and the payload processed. -/
def github_webhook (hmacHex : String → String → String) (secret : String)
    (signature : Option String) (rawBody : String)
    (parseJson : String → Option JVal) (fetch : Nat → FetchOutcome)
    (channelFound : Bool) (ledger : Ledger) : HOutcome :=
  match signature with
  | none => ⟨.resp 400 "Invalid signature", ledger, none⟩
  | some sig =>
    if !("sha256=".toList.isPrefixOf sig.toList) then
      ⟨.resp 400 "Invalid signature", ledger, none⟩
    else
      let expected_signature := "sha256=" ++ hmacHex secret rawBody
      if !(expected_signature = sig) then
        ⟨.resp 403 "Signatures do not match. Is the secret correct?", ledger, none⟩
      else
        match parseJson rawBody with
        | none => ⟨.pyExn "BadRequest", ledger, none⟩
        | some data => process_payload fetch channelFound ledger data

/-! ## Basic lemmas -/

mutual

theorem JVal.beq_refl : ∀ v : JVal, JVal.beq v v = true
  | .null => rfl
  | .jbool b => by simp [JVal.beq]
  | .jnum n => by simp [JVal.beq]
  | .jstr s => by simp [JVal.beq]
  | .jarr xs => by simp [JVal.beq, JVal.beqArr_refl xs]
  | .jobj xs => by simp [JVal.beq, JVal.beqObj_refl xs]

theorem JVal.beqArr_refl : ∀ xs : List JVal, JVal.beqArr xs xs = true
  | [] => rfl
  | x :: xs => by simp [JVal.beqArr, JVal.beq_refl x, JVal.beqArr_refl xs]

theorem JVal.beqObj_refl : ∀ xs : List (String × JVal), JVal.beqObj xs xs = true
  | [] => rfl
  | (k, v) :: xs => by simp [JVal.beqObj, JVal.beq_refl v, JVal.beqObj_refl xs]

end

theorem beq_refl_jval (v : JVal) : (v == v) = true := JVal.beq_refl v

/-- If no row matches, the `UPDATE` leaves the table unchanged. -/
theorem setPoints_of_find_none (l : Ledger) (u : JVal) (x : Int)
    (h : l.find? (fun kv => kv.1 == u) = none) : setPoints l u x = l := by
  induction l with
  | nil => rfl
  | cons kv t ih =>
    rw [List.find?_cons] at h
    cases hbe : (kv.1 == u) with
    | true => rw [hbe] at h; exact absurd h (by simp)
    | false =>
      rw [hbe] at h
      have hrest := ih h
      simp only [setPoints] at hrest ⊢
      simp [hbe, hrest]

/-- The first matching row of the updated table is the old first matching
row with its points rewritten. -/
theorem find_setPoints (l : Ledger) (u : JVal) (x : Int) :
    (setPoints l u x).find? (fun kv => kv.1 == u) =
      (l.find? (fun kv => kv.1 == u)).map (fun kv => (kv.1, x)) := by
  induction l with
  | nil => rfl
  | cons kv t ih =>
    cases hbe : (kv.1 == u) with
    | true =>
      simp only [setPoints, List.map_cons, hbe, if_true]
      rw [List.find?_cons_of_pos _ (by simpa using hbe),
          List.find?_cons_of_pos _ (by simpa using hbe)]
      rfl
    | false =>
      simp only [setPoints, List.map_cons, hbe, if_false]
      rw [List.find?_cons_of_neg _ (by simp [hbe]),
          List.find?_cons_of_neg _ (by simp [hbe])]
      simpa [setPoints] using ih

/-- Re-running the `UPDATE` overwrites the previous points. -/
theorem setPoints_setPoints (l : Ledger) (u : JVal) (x y : Int) :
    setPoints (setPoints l u x) u y = setPoints l u y := by
  induction l with
  | nil => rfl
  | cons kv t ih =>
    cases hbe : (kv.1 == u) with
    | true => simp [setPoints, hbe] at ih ⊢; exact ih
    | false => simp [setPoints, hbe] at ih ⊢; exact ih


/-- `UPDATE` distributes over concatenation of row blocks. -/
theorem setPoints_append (l1 l2 : Ledger) (u : JVal) (x : Int) :
    setPoints (l1 ++ l2) u x = setPoints l1 u x ++ setPoints l2 u x := by
  simp [setPoints]

/-- `UPDATE` on the single row of the key rewrites exactly that row. -/
theorem setPoints_singleton (u : JVal) (a x : Int) :
    setPoints [(u, a)] u x = [(u, x)] := by
  simp [setPoints, beq_refl_jval]

/-! ## C1: label policy precedence -/

/-- C1: for every set of label strings the policy returns exactly one of
0, 5, 10, 20, evaluated in fixed precedence with first match winning:
"hard" gives 20 regardless of other labels, else "medium" gives 10, else
"easy" gives 5, else 0; in particular "hard" together with "easy" gives 20,
not 25. -/
theorem labelPoints_precedence (labels : List String) :
    (labelPoints labels = 0 ∨ labelPoints labels = 5 ∨
      labelPoints labels = 10 ∨ labelPoints labels = 20) ∧
    ("hard" ∈ labels → labelPoints labels = 20) ∧
    ("hard" ∉ labels → "medium" ∈ labels → labelPoints labels = 10) ∧
    ("hard" ∉ labels → "medium" ∉ labels → "easy" ∈ labels →
      labelPoints labels = 5) ∧
    ("hard" ∉ labels → "medium" ∉ labels → "easy" ∉ labels →
      labelPoints labels = 0) ∧
    ("hard" ∈ labels → "easy" ∈ labels → labelPoints labels = 20) := by
  by_cases hh : "hard" ∈ labels <;> by_cases hm : "medium" ∈ labels <;>
    by_cases he : "easy" ∈ labels <;>
      simp [labelPoints, hh, hm, he]

/-- Witness for C1 at the label set containing both "hard" and "easy". -/
theorem labelPoints_precedence_witness :
    "hard" ∈ (["hard", "easy"] : List String) ∧
      "easy" ∈ (["hard", "easy"] : List String) ∧
      labelPoints ["hard", "easy"] = 20 :=
  ⟨by simp, by simp,
    (labelPoints_precedence ["hard", "easy"]).2.2.2.2.2 (by simp) (by simp)⟩

/-! ## C5: accumulation is additive -/

/-- C5: for every identity and positive deltas `a`, `b`, running
`update_score` with `a` and then with `b` leaves the `scores` table in
exactly the state of a single `update_score` with `a + b`: a missing row is
created with the delta, an existing row has the delta added. -/
theorem update_score_accumulates (l : Ledger) (u : JVal) (a b : Int)
    (ha : 0 < a) (hb : 0 < b) :
    update_score (update_score l u a) u b = update_score l u (a + b) := by
  cases h : l.find? (fun kv => kv.1 == u) with
  | none =>
    have h1 : update_score l u a = l ++ [(u, a)] := by
      simp [update_score, selectPoints, h]
    have hfind : (l ++ [(u, a)]).find? (fun kv => kv.1 == u) = some (u, a) := by
      simp [List.find?_append, h, beq_refl_jval]
    have h3 : update_score (l ++ [(u, a)]) u b =
        setPoints (l ++ [(u, a)]) u (a + b) := by
      simp [update_score, selectPoints, hfind]
    have h2 : update_score l u (a + b) = l ++ [(u, a + b)] := by
      simp [update_score, selectPoints, h]
    rw [h1, h3, h2, setPoints_append, setPoints_singleton,
        setPoints_of_find_none l u (a + b) h]
  | some kv =>
    have h1 : update_score l u a = setPoints l u (kv.2 + a) := by
      simp [update_score, selectPoints, h]
    have hfind2 : (setPoints l u (kv.2 + a)).find? (fun kv => kv.1 == u) =
        some (kv.1, kv.2 + a) := by
      rw [find_setPoints, h]; rfl
    have h2 : update_score (setPoints l u (kv.2 + a)) u b =
        setPoints (setPoints l u (kv.2 + a)) u (kv.2 + a + b) := by
      simp [update_score, selectPoints, hfind2]
    have h3 : update_score l u (a + b) = setPoints l u (kv.2 + (a + b)) := by
      simp [update_score, selectPoints, h]
    rw [h1, h2, setPoints_setPoints, h3, add_assoc]

/-- Witness for C5: a fresh contributor scored 2 then 3 ends exactly as if
scored 5 once. -/
theorem update_score_accumulates_witness :
    (0 : Int) < 2 ∧ (0 : Int) < 3 ∧
      update_score (update_score [] (JVal.jstr "alice") 2) (JVal.jstr "alice") 3
        = update_score [] (JVal.jstr "alice") (2 + 3) :=
  ⟨by decide, by decide,
    update_score_accumulates [] (JVal.jstr "alice") 2 3 (by decide) (by decide)⟩


/-! ## C6: leaderboard query -/

/-- C6: for every ledger state and positive `n`, the `ORDER BY points DESC
LIMIT n` query returns at most `n` rows, sorted non-increasing by points;
the leaderboard command leaves the ledger unchanged, and on an empty ledger
it sends the distinct "empty" message instead of a board. -/
theorem topN_leaderboard_spec (l : Ledger) (n : Nat) (hn : 0 < n) :
    (topN l n).length ≤ n ∧
    List.Pairwise (fun a b : JVal × Int => b.2 ≤ a.2) (topN l n) ∧
    (show_leaderboard l).2 = l ∧
    (l = [] → (show_leaderboard l).1 = LeaderboardMsg.empty) := by
  refine ⟨List.length_take_le n _, ?_, ?_, ?_⟩
  · have hs : (l.mergeSort (fun a b => decide (b.2 ≤ a.2))).Pairwise
        (fun a b : JVal × Int => decide (b.2 ≤ a.2) = true) :=
      List.sorted_mergeSort
        (by intro a b c hab hbc; simp at hab hbc ⊢; omega)
        (by intro a b; simpa using Int.le_total b.2 a.2) l
    have hsub := List.Pairwise.sublist (List.take_sublist n _) hs
    exact hsub.imp (fun h => by simpa using h)
  · by_cases hc : (topN l 10).isEmpty <;> simp [show_leaderboard, hc]
  · intro h; subst h; simp [show_leaderboard, topN]

/-- Witness for C6 on a one-row ledger with `n = 2`, plus the empty-ledger
message. -/
theorem topN_leaderboard_spec_witness :
    (0 < 2 ∧
      (topN [(JVal.jstr "a", 3)] 2).length ≤ 2 ∧
      List.Pairwise (fun a b : JVal × Int => b.2 ≤ a.2)
        (topN [(JVal.jstr "a", 3)] 2) ∧
      (show_leaderboard [(JVal.jstr "a", 3)]).2 = [(JVal.jstr "a", 3)] ∧
      ([(JVal.jstr "a", 3)] = ([] : Ledger) →
        (show_leaderboard [(JVal.jstr "a", 3)]).1 = LeaderboardMsg.empty)) ∧
    (show_leaderboard []).1 = LeaderboardMsg.empty :=
  ⟨⟨by decide, topN_leaderboard_spec [(JVal.jstr "a", 3)] 2 (by decide)⟩,
    (topN_leaderboard_spec [] 1 (by decide)).2.2.2 rfl⟩


/-! ## C10: no word-boundary anchor in the extraction pattern -/

/-- A word character in the sense of a regex word boundary (ASCII). -/
def wordChar (c : Char) : Bool := c.isAlphanum || c = '_'

/-- `w` occurs in `s` as a standalone word: a case-insensitive occurrence
whose neighbouring characters (when they exist) are not word characters. -/
def occursAsWord (w s : String) : Bool :=
  let ws := w.toList.map Char.toLower
  let cs := s.toList.map Char.toLower
  (List.range (cs.length + 1)).any (fun i =>
    decide ((cs.drop i).take ws.length = ws) &&
    (decide (i = 0) || !wordChar (cs.getD (i - 1) ' ')) &&
    (decide (i + ws.length = cs.length) || !wordChar (cs.getD (i + ws.length) ' ')))

/-- C10: the search pattern does not anchor the keywords at a word
boundary: "prefixes #3" contains none of the nine closing keywords as a
standalone word, yet extraction succeeds (via "fixes" inside "prefixes")
and returns issue number 3. -/
theorem no_word_boundary_anchor :
    extract_issue_number "prefixes #3" = some 3 ∧
    (["close", "closes", "closed", "fix", "fixes", "fixed",
      "resolve", "resolves", "resolved"].all
        (fun k => !occursAsWord k "prefixes #3")) = true := by
  exact ⟨by decide, by decide⟩

/-! ## Payload fixture -/

/-- A well-formed merged-PR webhook payload (the shape GitHub delivers for
`action == "closed"` with `merged == true`), with the given author login and
PR body. -/
def mergedPrPayload (login : JVal) (body : String) : JVal :=
  .jobj [("action", .jstr "closed"),
         ("pull_request", .jobj
           [("merged", .jbool true),
            ("user", .jobj [("login", login)]),
            ("number", .jnum 1),
            ("title", .jstr "t"),
            ("html_url", .jstr "u"),
            ("body", .jstr body)])]


/-! ## C3: issue-reference extraction -/

/-- `re.search` returns the leftmost position at which the pattern matches:
a result `n` is the match at some position `i` such that no position before
`i` matches. -/
theorem searchFrom_first (cs : List Char) (n : Nat) :
    searchFrom cs = some n ↔
      ∃ i, matchAt (cs.drop i) = some n ∧
        ∀ j, j < i → matchAt (cs.drop j) = none := by
  induction cs with
  | nil =>
    constructor
    · intro h; exact absurd h (by simp [searchFrom])
    · rintro ⟨i, hi, -⟩
      rw [List.drop_nil] at hi
      exact absurd hi (by simp [matchAt, closingKeywords, dropKeywordCI])
  | cons c cs ih =>
    cases hm : matchAt (c :: cs) with
    | some m =>
      simp only [searchFrom, hm]
      constructor
      · intro h
        exact ⟨0, by simpa using hm.trans h, by omega⟩
      · rintro ⟨i, hi, hj⟩
        cases i with
        | zero => rw [List.drop_zero] at hi; rw [hm] at hi; exact hi
        | succ i =>
          have := hj 0 (Nat.succ_pos i)
          rw [List.drop_zero] at this
          rw [hm] at this; cases this
    | none =>
      simp only [searchFrom, hm]
      rw [ih]
      constructor
      · rintro ⟨i, hi, hj⟩
        refine ⟨i + 1, by simpa using hi, ?_⟩
        intro j hji
        cases j with
        | zero => simpa using hm
        | succ j => simpa using hj j (by omega)
      · rintro ⟨i, hi, hj⟩
        cases i with
        | zero => rw [List.drop_zero] at hi; rw [hm] at hi; cases hi
        | succ i =>
          refine ⟨i, by simpa using hi, ?_⟩
          intro j hji
          have := hj (j + 1) (by omega)
          simpa using this

/-- Keyword matching is case-insensitive: the keyword is consumed exactly
when lower-casing the next `k.length` characters of the text yields the
keyword, and the remainder is the rest of the text. -/
theorem dropKeywordCI_eq_some (k : List Char) :
    ∀ (cs rest : List Char), dropKeywordCI k cs = some rest ↔
      (cs.take k.length).map Char.toLower = k ∧ rest = cs.drop k.length := by
  induction k with
  | nil =>
    intro cs rest
    simp [dropKeywordCI, eq_comm]
  | cons kh kt ih =>
    intro cs rest
    cases cs with
    | nil => simp [dropKeywordCI]
    | cons c ct =>
      simp only [dropKeywordCI]
      by_cases hc : c.toLower = kh
      · rw [if_pos hc, ih ct rest]
        simp [hc]
      · rw [if_neg hc]
        simp only [List.length_cons, List.take_succ_cons, List.map_cons]
        constructor
        · intro h; cases h
        · rintro ⟨h1, -⟩
          exact absurd (List.head_eq_of_cons_eq h1) hc

/-- C3: extraction searches the PR body case-insensitively for a closing
keyword followed by one whitespace character and `#` plus digits, and
returns the digit group of the FIRST (leftmost) match; a missing or null
body behaves as the empty string; when no match exists the handler performs
no scoring, dispatches nothing, and responds 204. -/
theorem issue_extraction_spec :
    (∀ (cs : List Char) (n : Nat), searchFrom cs = some n ↔
        ∃ i, matchAt (cs.drop i) = some n ∧
          ∀ j, j < i → matchAt (cs.drop j) = none) ∧
    (∀ (k cs rest : List Char), dropKeywordCI k cs = some rest ↔
        (cs.take k.length).map Char.toLower = k ∧ rest = cs.drop k.length) ∧
    (∀ pr, objGet pr "body" = none → prBody pr = Except.ok "") ∧
    (∀ pr, objGet pr "body" = some JVal.null → prBody pr = Except.ok "") ∧
    (∀ (fetch : Nat → FetchOutcome) (ch : Bool) (l : Ledger) (login : JVal)
        (body : String), extract_issue_number body = none →
        process_payload fetch ch l (mergedPrPayload login body) =
          ⟨.resp 204 "", l, none⟩) := by
  refine ⟨searchFrom_first, dropKeywordCI_eq_some, ?_, ?_, ?_⟩
  · intro pr h; simp [prBody, h]
  · intro pr h; simp [prBody, h, pyTruthy]
  · intro fetch ch l login body h
    by_cases hb : body.isEmpty
    · rw [String.isEmpty_iff] at hb
      subst hb
      simp [process_payload, mergedPrPayload, score_merged_pr, objGet, prBody,
        pyTruthy, h]
    · simp [process_payload, mergedPrPayload, score_merged_pr, objGet, prBody,
        pyTruthy, h, hb]

/-- Witness for C3: "Relates to #7" has no closing keyword, so the webhook
is a no-op with 204 and an unchanged empty ledger. -/
theorem issue_extraction_spec_witness :
    extract_issue_number "Relates to #7" = none ∧
    process_payload (fun _ => FetchOutcome.netError) false []
        (mergedPrPayload (JVal.jstr "alice") "Relates to #7") =
      ⟨HStatus.resp 204 "", [], none⟩ :=
  ⟨by decide,
    issue_extraction_spec.2.2.2.2 (fun _ => FetchOutcome.netError) false []
      (JVal.jstr "alice") "Relates to #7" (by decide)⟩


/-! ## C2: signature verification gate -/

/-- C2: a missing or wrongly-prefixed signature header is rejected with 400
and a digest mismatch with 403, in both cases before and independently of
any JSON parsing (the result does not depend on `parseJson`); the correctly
computed signature over the delivered body is accepted and processing
proceeds on the parsed payload; any signature other than the correct one is
rejected (400 or 403) with the ledger untouched, and a delivered body whose
digest differs from the signed one is rejected with 403. -/
theorem webhook_signature_gate
    (hmacHex : String → String → String) (secret rawBody : String)
    (parseJson : String → Option JVal) (fetch : Nat → FetchOutcome)
    (ch : Bool) (l : Ledger) :
    (github_webhook hmacHex secret none rawBody parseJson fetch ch l =
        ⟨.resp 400 "Invalid signature", l, none⟩) ∧
    (∀ sig : String, ¬ ("sha256=".toList <+: sig.toList) →
        github_webhook hmacHex secret (some sig) rawBody parseJson fetch ch l =
          ⟨.resp 400 "Invalid signature", l, none⟩) ∧
    (∀ sig : String, "sha256=".toList <+: sig.toList →
        sig ≠ "sha256=" ++ hmacHex secret rawBody →
        github_webhook hmacHex secret (some sig) rawBody parseJson fetch ch l =
          ⟨.resp 403 "Signatures do not match. Is the secret correct?", l,
            none⟩) ∧
    (∀ data : JVal, parseJson rawBody = some data →
        github_webhook hmacHex secret
            (some ("sha256=" ++ hmacHex secret rawBody)) rawBody parseJson
            fetch ch l = process_payload fetch ch l data) ∧
    (∀ sig : String, sig ≠ "sha256=" ++ hmacHex secret rawBody →
        ∃ c msg,
          github_webhook hmacHex secret (some sig) rawBody parseJson fetch ch l
              = ⟨.resp c msg, l, none⟩ ∧ (c = 400 ∨ c = 403)) ∧
    (∀ body2 : String, hmacHex secret body2 ≠ hmacHex secret rawBody →
        github_webhook hmacHex secret
            (some ("sha256=" ++ hmacHex secret rawBody)) body2 parseJson
            fetch ch l =
          ⟨.resp 403 "Signatures do not match. Is the secret correct?", l,
            none⟩) := by
  have hpre : ∀ t : String, "sha256=".toList <+: ("sha256=" ++ t).toList := by
    intro t
    exact ⟨t.toList, by simp [String.toList, String.data_append]⟩
  have h400 : ∀ sig : String, ¬ ("sha256=".toList <+: sig.toList) →
      github_webhook hmacHex secret (some sig) rawBody parseJson fetch ch l =
        ⟨.resp 400 "Invalid signature", l, none⟩ := by
    intro sig h
    have hb : ("sha256=".toList.isPrefixOf sig.toList) = false := by
      rw [Bool.eq_false_iff]
      intro hc
      exact h (List.isPrefixOf_iff_prefix.mp hc)
    simp only [github_webhook, hb]
    simp
  have h403 : ∀ sig : String, "sha256=".toList <+: sig.toList →
      sig ≠ "sha256=" ++ hmacHex secret rawBody →
      github_webhook hmacHex secret (some sig) rawBody parseJson fetch ch l =
        ⟨.resp 403 "Signatures do not match. Is the secret correct?", l,
          none⟩ := by
    intro sig h hne
    have hb : ("sha256=".toList.isPrefixOf sig.toList) = true :=
      List.isPrefixOf_iff_prefix.mpr h
    have hd : ("sha256=" ++ hmacHex secret rawBody = sig) = False :=
      eq_false (Ne.symm hne)
    simp only [github_webhook, hb, hd]
    simp
  refine ⟨rfl, h400, h403, ?_, ?_, ?_⟩
  · intro data hdata
    have hb : ("sha256=".toList.isPrefixOf
        ("sha256=" ++ hmacHex secret rawBody).toList) = true :=
      List.isPrefixOf_iff_prefix.mpr (hpre (hmacHex secret rawBody))
    simp only [github_webhook, hb, hdata]
    simp
  · intro sig hne
    by_cases hp : "sha256=".toList <+: sig.toList
    · exact ⟨403, "Signatures do not match. Is the secret correct?",
        h403 sig hp hne, Or.inr rfl⟩
    · exact ⟨400, "Invalid signature", h400 sig hp, Or.inl rfl⟩
  · intro body2 hd
    have hne : ("sha256=" ++ hmacHex secret body2 =
        "sha256=" ++ hmacHex secret rawBody) = False := by
      refine eq_false ?_
      intro hcontra
      apply hd
      have := congrArg String.data hcontra
      simp [String.data_append] at this
      exact String.ext this
    have hb : ("sha256=".toList.isPrefixOf
        ("sha256=" ++ hmacHex secret rawBody).toList) = true :=
      List.isPrefixOf_iff_prefix.mpr (hpre (hmacHex secret rawBody))
    simp only [github_webhook, hb, hne]
    simp

/-- Witness for C2: a prefixed but wrong signature value is rejected with
403 and the ledger is untouched. -/
theorem webhook_signature_gate_witness :
    github_webhook (fun s b => s ++ b) "k" (some "sha256=x") "m"
        (fun _ => some JVal.null) (fun _ => FetchOutcome.netError) false [] =
      ⟨HStatus.resp 403 "Signatures do not match. Is the secret correct?",
        [], none⟩ :=
  (webhook_signature_gate (fun s b => s ++ b) "k" "m" (fun _ => some JVal.null)
      (fun _ => FetchOutcome.netError) false []).2.2.1 "sha256=x"
    (by decide) (by decide)


/-! ## C4: resolver failure handling -/

/-- Counterexample to C4 as stated: a raised network failure/timeout is not
caught anywhere — `get_points_from_pr_labels` propagates it and the webhook
run ends in an uncaught exception, not in the 204 response the claim
requires. -/
theorem resolver_netError_counterexample :
    get_points_from_pr_labels FetchOutcome.netError =
      Except.error "RequestException" ∧
    process_payload (fun _ => FetchOutcome.netError) false []
        (mergedPrPayload (JVal.jstr "alice") "Fixes #42") =
      ⟨HStatus.pyExn "RequestException", [], none⟩ ∧
    HStatus.pyExn "RequestException" ≠ HStatus.resp 204 "" :=
  ⟨rfl, rfl, by simp⟩

/-- C4 (amended): a non-200 response from the resolver is treated as zero
labels, so scoring yields zero points, the ledger is unchanged and the
handler still responds 204; on a 200 response the label names are
lower-cased before matching.  (A raised network failure, by contrast,
propagates as an exception — see the counterexample.) -/
theorem resolver_non200_zero_points :
    (∀ (st : Nat) (labels : List String), st ≠ 200 →
        get_points_from_pr_labels (.response st labels) = .ok 0) ∧
    (∀ labels : List String,
        get_points_from_pr_labels (.response 200 labels) =
          .ok (labelPoints (labels.map String.toLower))) ∧
    (∀ (ch : Bool) (l : Ledger) (login : JVal) (body : String) (st : Nat)
        (labels : List String) (n : Nat), extract_issue_number body = some n →
        st ≠ 200 →
        process_payload (fun _ => .response st labels) ch l
            (mergedPrPayload login body) = ⟨.resp 204 "", l, none⟩) := by
  have hz : ∀ (st : Nat) (labels : List String), st ≠ 200 →
      get_points_from_pr_labels (.response st labels) = .ok 0 := by
    intro st labels hst
    simp [get_points_from_pr_labels, hst]
  refine ⟨hz, ?_, ?_⟩
  · intro labels
    simp [get_points_from_pr_labels]
  · intro ch l login body st labels n hex hst
    by_cases hb : body.isEmpty
    · rw [String.isEmpty_iff] at hb
      subst hb
      rw [show extract_issue_number "" = none from rfl] at hex
      cases hex
    · simp [process_payload, mergedPrPayload, score_merged_pr, objGet, prBody,
        pyTruthy, hex, hb, hz st labels hst]

/-- Witness for C4 (amended): a 404 on issue 42 scores zero and the webhook
still no-ops with 204. -/
theorem resolver_non200_zero_points_witness :
    extract_issue_number "Fixes #42" = some 42 ∧ (404 : Nat) ≠ 200 ∧
    process_payload (fun _ => FetchOutcome.response 404 ["hard"]) false []
        (mergedPrPayload (JVal.jstr "alice") "Fixes #42") =
      ⟨HStatus.resp 204 "", [], none⟩ :=
  ⟨by decide, by decide,
    resolver_non200_zero_points.2.2 false [] (JVal.jstr "alice") "Fixes #42"
      404 ["hard"] 42 (by decide) (by decide)⟩

/-! ## C7: malformed payloads crash instead of failing safely -/

/-- C7: the code contradicts the fail-safe contract.  An authenticated JSON
payload with action "closed" but no pull_request object makes
`data['pull_request']` raise KeyError (Flask answers 500), instead of the
safe no-op success response the claim requires. -/
theorem malformed_payload_crashes :
    github_webhook (fun _ b => b) "k" (some "sha256=b") "b"
        (fun _ => some (JVal.jobj [("action", JVal.jstr "closed")]))
        (fun _ => FetchOutcome.netError) false [] =
      ⟨HStatus.pyExn "KeyError", [], none⟩ ∧
    HStatus.pyExn "KeyError" ≠ HStatus.resp 204 "" :=
  ⟨rfl, by simp⟩

/-! ## C8: out-of-scope events -/

/-- Counterexample to C8 as stated: the payload with action "closed" and no
pull_request does not have action=closed together with merged=true, yet the
handler raises KeyError rather than answering 204. -/
theorem out_of_scope_payload_counterexample :
    (process_payload (fun _ => FetchOutcome.netError) false []
          (JVal.jobj [("action", JVal.jstr "closed")])).status =
        HStatus.pyExn "KeyError" ∧
    HStatus.pyExn "KeyError" ≠ HStatus.resp 204 "" :=
  ⟨rfl, by simp⟩

/-- C8 (amended): for every authenticated object payload whose action field
is missing or differs from "closed", and for every payload with action
"closed" whose pull_request object carries a falsy merged field, the
handler performs no scoring: the ledger is unchanged, no notification is
dispatched, and the response is 204.  (As stated the claim would also cover
action "closed" payloads lacking pull_request or merged; those raise
KeyError — see the counterexample.) -/
theorem out_of_scope_payload_no_op (fetch : Nat → FetchOutcome) (ch : Bool)
    (l : Ledger) :
    (∀ fields : List (String × JVal), objGet fields "action" = none →
        process_payload fetch ch l (.jobj fields) =
          ⟨.resp 204 "", l, none⟩) ∧
    (∀ (fields : List (String × JVal)) (v : JVal),
        objGet fields "action" = some v → v ≠ JVal.jstr "closed" →
        process_payload fetch ch l (.jobj fields) =
          ⟨.resp 204 "", l, none⟩) ∧
    (∀ (fields pr : List (String × JVal)) (m : JVal),
        objGet fields "action" = some (JVal.jstr "closed") →
        objGet fields "pull_request" = some (.jobj pr) →
        objGet pr "merged" = some m → pyTruthy m = false →
        process_payload fetch ch l (.jobj fields) =
          ⟨.resp 204 "", l, none⟩) := by
  refine ⟨?_, ?_, ?_⟩
  · intro fields h
    simp [process_payload, h]
  · intro fields v hv hne
    cases v with
    | jstr s =>
      have hs : s ≠ "closed" := fun hcontra => hne (by rw [hcontra])
      simp [process_payload, hv, hs]
    | null => simp [process_payload, hv]
    | jbool b => simp [process_payload, hv]
    | jnum n => simp [process_payload, hv]
    | jarr elems => simp [process_payload, hv]
    | jobj f => simp [process_payload, hv]
  · intro fields pr m h1 h2 h3 h4
    simp [process_payload, h1, h2, h3, h4]

/-- Witness for C8 (amended): action "closed" with merged=false is a no-op
204 with the ledger untouched. -/
theorem out_of_scope_payload_no_op_witness :
    objGet [("action", JVal.jstr "closed"),
        ("pull_request", JVal.jobj [("merged", JVal.jbool false)])]
        "action" = some (JVal.jstr "closed") ∧
    process_payload (fun _ => FetchOutcome.netError) false []
        (.jobj [("action", JVal.jstr "closed"),
          ("pull_request", JVal.jobj [("merged", JVal.jbool false)])]) =
      ⟨HStatus.resp 204 "", [], none⟩ :=
  ⟨rfl,
    (out_of_scope_payload_no_op (fun _ => FetchOutcome.netError) false
        []).2.2
      [("action", JVal.jstr "closed"),
        ("pull_request", JVal.jobj [("merged", JVal.jbool false)])]
      [("merged", JVal.jbool false)] (JVal.jbool false) rfl rfl rfl rfl⟩

end DiscordBot
